import Mathlib

/-!
Verification of the fine-tuning tutorial notebook (src/tutorial.ipynb).

The notebook is glue code over external ML libraries.  We shallowly embed the
pieces of original logic (the parameter-counting loop, the training loop's
control flow, the label-index comprehension, the tensor concatenation along
dimension 1) directly from the source, and model the external collaborators
(tokenizer, torch.tensor, the LoRA wrapper) from the spec's contracts, as
their code is not in the repository.
-/

namespace Tutorial

/-- A model parameter as seen by `model.named_parameters()`: its element count
(`numel`) and its `requires_grad` flag. -/
structure Param where
  numel : Nat
  requires_grad : Bool
deriving DecidableEq, Repr

/-- A model, for the purposes of the counting loop, is its parameter list. -/
abbrev Model := List Param

/-- One iteration of the loop in `print_trainable_parameters`
(src/tutorial.ipynb, cell-27): `all_param += param.numel()` unconditionally,
then `trainable_params += param.numel()` when `param.requires_grad`.
The accumulator is the pair `(trainable_params, all_param)`. -/
def count_step (acc : Nat × Nat) (p : Param) : Nat × Nat :=
  let new_all := acc.2 + p.numel
  let new_trainable := if p.requires_grad then acc.1 + p.numel else acc.1
  (new_trainable, new_all)

/-- The counting loop of `print_trainable_parameters`, starting from
`trainable_params = 0`, `all_param = 0`. -/
def count_parameters (m : Model) : Nat × Nat :=
  m.foldl count_step (0, 0)

/-- `trainable_params` after the loop. -/
def trainable_params (m : Model) : Nat := (count_parameters m).1

/-- `all_param` after the loop. -/
def all_param (m : Model) : Nat := (count_parameters m).2

/-- The faults of interest that a notebook cell can raise. -/
inductive PyFault where
  | zeroDivision
  | typeFault (msg : String)
  | badParse
deriving DecidableEq, Repr

/-- Python's true division: raises `ZeroDivisionError` when the divisor is
zero, otherwise returns the rational quotient. -/
def pyDiv (a b : ℚ) : Except PyFault ℚ :=
  if b = 0 then .error .zeroDivision else .ok (a / b)

/-- The percentage printed by `print_trainable_parameters`:
`100 * trainable_params / all_param`, with no guard on `all_param`. -/
def trainable_percentage (m : Model) : Except PyFault ℚ :=
  pyDiv (100 * (trainable_params m : ℚ)) (all_param m : ℚ)

/-- The freeze loop of cell-25: `param.requires_grad = False` for every
parameter of the model. -/
def freeze (m : Model) : Model :=
  m.map (fun p => { p with requires_grad := false })

/-- Modelled from the spec: `get_peft_model` (peft library, not in src/) wraps
the base model so that "a small number of additional parameters (low-rank
matrices targeting specific projection layers) are trainable while all
original weights are frozen" — the wrapped model carries the base parameters
unchanged plus the adapter parameters, which are trainable. `adapters` lists
the element counts of the injected low-rank matrices. -/
def get_peft_model (base : Model) (adapters : List Nat) : Model :=
  base ++ adapters.map (fun n => { numel := n, requires_grad := true })

/-- Modelled from the spec: the Hugging Face tokenizer called in
src/tutorial.ipynb is library code not present in src/.  Per the spec's
contract it is a deterministic per-string token function (the vocabulary
lookup) together with a model maximum length used for truncation. -/
structure Tokenizer where
  tokenize : String → List Nat
  model_max_length : Nat

/-- The token-id sequence of one text after truncation to the model's
maximum length (`truncation=True`). -/
def truncated_ids (tok : Tokenizer) (t : String) : List Nat :=
  (tok.tokenize t).take tok.model_max_length

/-- The common padded length of a batch: the longest (truncated) sample
(`padding=True` pads to the longest sample in the batch). -/
def batch_length (tok : Tokenizer) (texts : List String) : Nat :=
  (texts.map (fun t => (truncated_ids tok t).length)).foldr max 0

/-- The two tensors returned by `tokenizer(texts, padding=True,
truncation=True, return_tensors='pt')`: `input_ids` and `attention_mask`. -/
structure EncodedBatch where
  input_ids : List (List Nat)
  attention_mask : List (List Nat)
deriving DecidableEq, Repr

/-- Modelled from the spec: the encoding step.  Each row of `input_ids` is
the truncated token sequence padded on the right with the pad id (0) up to
the batch length; each row of `attention_mask` holds 1 at real-token
positions and 0 at padding positions. -/
def encode (tok : Tokenizer) (texts : List String) : EncodedBatch :=
  let L := batch_length tok texts
  { input_ids := texts.map (fun t =>
      truncated_ids tok t ++ List.replicate (L - (truncated_ids tok t).length) 0),
    attention_mask := texts.map (fun t =>
      List.replicate (truncated_ids tok t).length 1 ++
        List.replicate (L - (truncated_ids tok t).length) 0) }

/-- The sentiment label list of the dataset cells. -/
def sentiments : List String := ["positive", "negative", "neutral"]

/-- The label-index comprehension of cell-5:
`[sentiments.index(sentiment) for sentiment in sentiments]`. -/
def sentiment_labels (l : List String) : List Nat :=
  l.map (fun s => l.indexOf s)

/-- `num_classes = len(set(sentiment_labels))` of cell-7; Python's `set` of a
list is modelled by deduplication. -/
def num_classes (l : List String) : Nat :=
  (sentiment_labels l).dedup.length

/-- Events observable in one epoch of the fine-tuning loop of cell-9 /
cell-20, in source order: `optimizer.zero_grad()`, the forward pass with
loss computation on the whole dataset (the full `input_ids` and labels are
passed as one batch), `loss.backward()`, `optimizer.step()`. -/
inductive TrainEvent where
  | zero_grad : TrainEvent
  | forward : List (List Nat) → List Nat → TrainEvent
  | backward : TrainEvent
  | step : TrainEvent
deriving DecidableEq, Repr

/-- The body of one epoch of the training loop, as its event trace. -/
def epoch_body (input_ids : List (List Nat)) (labels : List Nat) : List TrainEvent :=
  [TrainEvent.zero_grad, TrainEvent.forward input_ids labels,
   TrainEvent.backward, TrainEvent.step]

/-- `num_epochs = 3` (cell-9 and cell-20). -/
def num_epochs : Nat := 3

/-- The trace of `for epoch in range(num_epochs): ...`: each iteration
appends one epoch body. -/
def training_loop (n : Nat) (input_ids : List (List Nat)) (labels : List Nat) :
    List TrainEvent :=
  (List.range n).foldl (fun acc _ => acc ++ epoch_body input_ids labels) []

/-- `torch.cat([a, b], dim=1)` on a pair of 2-d tensors modelled as lists of
rows: the rows are concatenated pairwise. -/
def cat_dim1 (a b : List (List Nat)) : List (List Nat) :=
  List.zipWith (fun r₁ r₂ => r₁ ++ r₂) a b

/-- `torch.ones_like(t)`: a tensor of the same shape as `t` filled with 1. -/
def ones_like (a : List (List Nat)) : List (List Nat) :=
  a.map (fun row => row.map (fun _ => 1))

/-- Cell-18: `input_ids = torch.cat([instruction_ids, input_ids], dim=1)`. -/
def augmented_input_ids (instruction_ids input_ids : List (List Nat)) :
    List (List Nat) :=
  cat_dim1 instruction_ids input_ids

/-- Cell-18: `attention_mask = torch.cat([torch.ones_like(instruction_ids),
attention_mask], dim=1)`. -/
def adjusted_attention_mask (instruction_ids attention_mask : List (List Nat)) :
    List (List Nat) :=
  cat_dim1 (ones_like instruction_ids) attention_mask

/-- A Python value as it appears in the label lists: an int or a string. -/
inductive PyValue where
  | int : Int → PyValue
  | str : String → PyValue
deriving DecidableEq, Repr

/-- Modelled from the spec: `torch.tensor` (library code not in src/)
converts a list of numeric values to a tensor and raises a fault when an
element is a string, as when cell-20 passes the string list `sentiments`. -/
def torch_tensor (xs : List PyValue) : Except PyFault (List Int) :=
  xs.mapM (fun v => match v with
    | PyValue.int n => Except.ok n
    | PyValue.str s => Except.error (PyFault.typeFault s))

/-- Running a notebook: each cell maps the kernel state to a new state or a
fault, and cells run in order with no handler anywhere — the source contains
no try/except — so a fault is passed through every remaining cell unchanged. -/
def run_cells {σ : Type} (cells : List (σ → Except PyFault σ)) (s : σ) :
    Except PyFault σ :=
  cells.foldl (fun acc c => acc.bind c) (Except.ok s)

/-- The source text of the first dataset cell (cell-3), whose `sentiments`
list literal is unterminated: the closing `]` is missing. -/
def cell3_source : String :=
  "texts = [\"I loved the movie. It was great!\",\n         \"The food was terrible.\",\n         \"The weather is okay.\"]\nsentiments = [\"positive\", \"negative\", \"neutral\""

/-- Net square-bracket nesting contribution of one character. -/
def bracketDelta (c : Char) : Int :=
  if c = '[' then 1 else if c = ']' then -1 else 0

/-- A source string has balanced square brackets when the deltas sum to 0. -/
def bracketsBalanced (s : String) : Bool :=
  (s.toList.map bracketDelta).sum = 0

/-- Modelled from the spec: CPython parses a cell before executing it and
raises `SyntaxError` on malformed source; an unterminated list literal
leaves the square brackets unbalanced. -/
def parse_cell (src : String) : Except PyFault Unit :=
  if bracketsBalanced src then Except.ok () else Except.error PyFault.badParse

/-- A concrete tokenizer for witness instances: each text maps to one token
id 7 per character. -/
def demo_tokenizer : Tokenizer :=
  { tokenize := fun t => List.replicate t.length 7, model_max_length := 512 }

/-- A second concrete tokenizer that agrees with `demo_tokenizer` except on
five-character strings. -/
def alt_tokenizer : Tokenizer :=
  { tokenize := fun t =>
      if t.length = 5 then [] else List.replicate t.length 7,
    model_max_length := 512 }

/- ### Helper lemmas -/

lemma count_step_fst (a : Nat × Nat) (p : Param) :
    (count_step a p).1 = if p.requires_grad then a.1 + p.numel else a.1 := rfl

lemma count_step_snd (a : Nat × Nat) (p : Param) :
    (count_step a p).2 = a.2 + p.numel := rfl

lemma count_foldl_fst (m : Model) (a : Nat × Nat) :
    (m.foldl count_step a).1 = a.1 + (m.foldl count_step (0, 0)).1 := by
  induction m generalizing a with
  | nil => rfl
  | cons p m ih =>
    rw [List.foldl_cons, List.foldl_cons, ih (count_step a p), ih (count_step (0, 0) p),
      count_step_fst, count_step_fst]
    by_cases hp : p.requires_grad = true <;> simp [hp]
    all_goals omega

lemma count_foldl_snd (m : Model) (a : Nat × Nat) :
    (m.foldl count_step a).2 = a.2 + (m.foldl count_step (0, 0)).2 := by
  induction m generalizing a with
  | nil => rfl
  | cons p m ih =>
    rw [List.foldl_cons, List.foldl_cons, ih (count_step a p), ih (count_step (0, 0) p),
      count_step_snd, count_step_snd]
    omega

lemma trainable_params_cons (p : Param) (m : Model) :
    trainable_params (p :: m) =
      (if p.requires_grad then p.numel else 0) + trainable_params m := by
  show (m.foldl count_step (count_step (0, 0) p)).1 = _
  rw [count_foldl_fst, count_step_fst]
  by_cases hp : p.requires_grad = true <;>
    simp [hp, trainable_params, count_parameters]

lemma all_param_cons (p : Param) (m : Model) :
    all_param (p :: m) = p.numel + all_param m := by
  show (m.foldl count_step (count_step (0, 0) p)).2 = _
  rw [count_foldl_snd, count_step_snd]
  simp [all_param, count_parameters]

lemma trainable_params_append (m₁ m₂ : Model) :
    trainable_params (m₁ ++ m₂) = trainable_params m₁ + trainable_params m₂ := by
  induction m₁ with
  | nil => simp [trainable_params, count_parameters]
  | cons p m₁ ih =>
    rw [List.cons_append, trainable_params_cons, trainable_params_cons, ih]
    omega

lemma all_param_append (m₁ m₂ : Model) :
    all_param (m₁ ++ m₂) = all_param m₁ + all_param m₂ := by
  induction m₁ with
  | nil => simp [all_param, count_parameters]
  | cons p m₁ ih =>
    rw [List.cons_append, all_param_cons, all_param_cons, ih]
    omega

lemma trainable_params_freeze (m : Model) : trainable_params (freeze m) = 0 := by
  induction m with
  | nil => rfl
  | cons p m ih =>
    have h : freeze (p :: m) = { p with requires_grad := false } :: freeze m := rfl
    rw [h, trainable_params_cons, ih]
    simp

lemma all_param_freeze (m : Model) : all_param (freeze m) = all_param m := by
  induction m with
  | nil => rfl
  | cons p m ih =>
    have h : freeze (p :: m) = { p with requires_grad := false } :: freeze m := rfl
    rw [h, all_param_cons, all_param_cons, ih]

lemma trainable_le_all (m : Model) : trainable_params m ≤ all_param m := by
  induction m with
  | nil => exact Nat.le_refl 0
  | cons p m ih =>
    rw [trainable_params_cons, all_param_cons]
    by_cases hp : p.requires_grad = true <;> simp [hp]
    all_goals omega

lemma le_foldr_max (l : List Nat) (x : Nat) (hx : x ∈ l) : x ≤ l.foldr max 0 := by
  induction l with
  | nil => cases hx
  | cons a l ih =>
    rcases List.mem_cons.mp hx with h | h
    · exact h ▸ Nat.le_max_left a (l.foldr max 0)
    · exact Nat.le_trans (ih h) (Nat.le_max_right a (l.foldr max 0))

lemma truncated_le_batch_length (tok : Tokenizer) (texts : List String)
    (t : String) (ht : t ∈ texts) :
    (truncated_ids tok t).length ≤ batch_length tok texts := by
  exact le_foldr_max _ _ (List.mem_map_of_mem _ ht)

lemma encode_input_row_length (tok : Tokenizer) (texts : List String)
    (t : String) (ht : t ∈ texts) :
    ((truncated_ids tok t ++
        List.replicate (batch_length tok texts - (truncated_ids tok t).length) 0)).length
      = batch_length tok texts := by
  rw [List.length_append, List.length_replicate]
  have := truncated_le_batch_length tok texts t ht
  omega

lemma encode_mask_row_length (tok : Tokenizer) (texts : List String)
    (t : String) (ht : t ∈ texts) :
    ((List.replicate (truncated_ids tok t).length 1 ++
        List.replicate (batch_length tok texts - (truncated_ids tok t).length) 0)).length
      = batch_length tok texts := by
  rw [List.length_append, List.length_replicate, List.length_replicate]
  have := truncated_le_batch_length tok texts t ht
  omega

lemma training_loop_eq_flatten (n : Nat) (ids : List (List Nat)) (labels : List Nat) :
    training_loop n ids labels = (List.replicate n (epoch_body ids labels)).flatten := by
  induction n with
  | zero => rfl
  | succ n ih =>
    rw [training_loop, List.range_succ, List.foldl_append]
    rw [show (List.range n).foldl (fun acc _ => acc ++ epoch_body ids labels) [] =
      training_loop n ids labels from rfl, ih]
    rw [List.replicate_succ']
    simp

lemma getD_zipWith_append (a b : List (List Nat)) (i : Nat)
    (ha : i < a.length) (hb : i < b.length) :
    (List.zipWith (fun r₁ r₂ => r₁ ++ r₂) a b).getD i [] = a.getD i [] ++ b.getD i [] := by
  induction a generalizing b i with
  | nil => simp at ha
  | cons r a ih =>
    cases b with
    | nil => simp at hb
    | cons r' b =>
      cases i with
      | zero => rfl
      | succ i =>
        have ha' : i < a.length := by simpa using ha
        have hb' : i < b.length := by simpa using hb
        simpa using ih b i ha' hb'

lemma getD_ones_like (a : List (List Nat)) (i : Nat) (ha : i < a.length) :
    (ones_like a).getD i [] = (a.getD i []).map (fun _ => 1) := by
  induction a generalizing i with
  | nil => simp at ha
  | cons r a ih =>
    cases i with
    | zero => rfl
    | succ i =>
      have ha' : i < a.length := by simpa using ha
      simpa [ones_like] using ih i ha'

lemma getD_map_one_of_lt (row : List Nat) (j : Nat) (hj : j < row.length) :
    (row.map (fun _ => 1)).getD j 0 = 1 := by
  induction row generalizing j with
  | nil => simp at hj
  | cons x row ih =>
    cases j with
    | zero => rfl
    | succ j =>
      have hj' : j < row.length := by simpa using hj
      simpa using ih j hj'

lemma run_cells_error {σ : Type} (cells : List (σ → Except PyFault σ)) (f : PyFault) :
    cells.foldl (fun acc c => acc.bind c) (Except.error f : Except PyFault σ)
      = Except.error f := by
  induction cells with
  | nil => rfl
  | cons c cells ih => exact ih

lemma run_cells_halts {σ : Type} (pre post : List (σ → Except PyFault σ))
    (c : σ → Except PyFault σ) (s s' : σ) (f : PyFault)
    (h1 : run_cells pre s = Except.ok s') (h2 : c s' = Except.error f) :
    run_cells (pre ++ c :: post) s = Except.error f := by
  rw [run_cells, List.foldl_append]
  rw [show pre.foldl (fun acc c => acc.bind c) (Except.ok s) = run_cells pre s from rfl]
  rw [h1, List.foldl_cons]
  rw [show (Except.ok s' : Except PyFault σ).bind c = c s' from rfl, h2]
  exact run_cells_error post f

/- ### Claim theorems -/

/-- Claim C1: for every list of N input strings, the encoding step produces a
token-id sequence and an attention-mask sequence of the same shape N × L for
a single common length L, both padded to the longest sample. -/
theorem C1_encode_shape (tok : Tokenizer) (texts : List String) :
    (encode tok texts).input_ids.length = texts.length ∧
    (encode tok texts).attention_mask.length = texts.length ∧
    (∀ row ∈ (encode tok texts).input_ids, row.length = batch_length tok texts) ∧
    (∀ row ∈ (encode tok texts).attention_mask,
      row.length = batch_length tok texts) := by
  refine ⟨by simp [encode], by simp [encode], ?_, ?_⟩
  · intro row hrow
    simp only [encode, List.mem_map] at hrow
    obtain ⟨t, ht, rfl⟩ := hrow
    exact encode_input_row_length tok texts t ht
  · intro row hrow
    simp only [encode, List.mem_map] at hrow
    obtain ⟨t, ht, rfl⟩ := hrow
    exact encode_mask_row_length tok texts t ht

/-- Witness for C1 at a concrete tokenizer and text list. -/
theorem C1_encode_shape_witness :
    (encode demo_tokenizer ["ab", "c"]).input_ids.length
      = (["ab", "c"] : List String).length :=
  (C1_encode_shape demo_tokenizer ["ab", "c"]).1

/-- Claim C2: the training loop runs for exactly E = 3 epochs (the hardcoded
`num_epochs`), and each epoch performs, in order: clear previous gradients,
forward pass with loss computation on the whole dataset as one batch,
backward pass, one optimizer step — so exactly E forward/backward/step
cycles occur. -/
theorem C2_training_loop_epochs (ids : List (List Nat)) (labels : List Nat) :
    num_epochs = 3 ∧
    training_loop num_epochs ids labels =
      epoch_body ids labels ++ epoch_body ids labels ++ epoch_body ids labels ∧
    (training_loop num_epochs ids labels).countP
        (fun e => match e with | TrainEvent.forward _ _ => true | _ => false)
      = num_epochs ∧
    (training_loop num_epochs ids labels).countP
        (fun e => match e with | TrainEvent.backward => true | _ => false)
      = num_epochs ∧
    (training_loop num_epochs ids labels).countP
        (fun e => match e with | TrainEvent.step => true | _ => false)
      = num_epochs := by
  have h : training_loop num_epochs ids labels =
      epoch_body ids labels ++ epoch_body ids labels ++ epoch_body ids labels := by
    rw [training_loop_eq_flatten]
    simp [num_epochs, List.replicate_succ]
  refine ⟨rfl, h, ?_, ?_, ?_⟩ <;> rw [h] <;> rfl

/-- Claim C3: the label-to-index mapping computed by
`sentiment_labels = [sentiments.index(s) for s in sentiments]` is a
bijection over the distinct label set observed in the sample list, and
`num_classes = len(set(sentiment_labels))` equals the number of distinct
labels. -/
theorem C3_label_index_bijection (l : List String) :
    (∀ a ∈ l, ∀ b ∈ l, l.indexOf a = l.indexOf b → a = b) ∧
    Set.BijOn (fun s => l.indexOf s) {s | s ∈ l}
      ((fun s => l.indexOf s) '' {s | s ∈ l}) ∧
    num_classes l = l.dedup.length := by
  have hinj : ∀ a ∈ l, ∀ b ∈ l, l.indexOf a = l.indexOf b → a = b := by
    intro a ha b hb hab
    have ha' : l.indexOf a < l.length := List.indexOf_lt_length.mpr ha
    have hb' : l.indexOf b < l.length := List.indexOf_lt_length.mpr hb
    have hfin : (⟨l.indexOf a, ha'⟩ : Fin l.length) = ⟨l.indexOf b, hb'⟩ := by
      simpa using hab
    calc a = l.get ⟨l.indexOf a, ha'⟩ := (List.indexOf_get ha').symm
      _ = l.get ⟨l.indexOf b, hb'⟩ := congrArg l.get hfin
      _ = b := List.indexOf_get hb'
  refine ⟨hinj, ?_, ?_⟩
  · exact Set.InjOn.bijOn_image (fun a ha b hb hab => hinj a ha b hb hab)
  · show (sentiment_labels l).dedup.length = l.dedup.length
    have himg : (sentiment_labels l).toFinset
        = l.toFinset.image (fun s => l.indexOf s) := by
      ext n
      simp [sentiment_labels]
    rw [← List.card_toFinset, ← List.card_toFinset, himg]
    exact Finset.card_image_of_injOn
      (fun a ha b hb hab =>
        hinj a (List.mem_toFinset.mp ha) b (List.mem_toFinset.mp hb) hab)

/-- Witness for C3 at the concrete sentiment label list. -/
theorem C3_label_index_bijection_witness :
    num_classes sentiments = sentiments.dedup.length :=
  (C3_label_index_bijection sentiments).2.2

/-- Claim C4: after LoRA adapter injection onto a (non-degenerate) base model
whose original parameters were all frozen, the trainable-parameter count
computed by `print_trainable_parameters` is strictly less than the total
parameter count. -/
theorem C4_lora_trainable_lt (base : Model) (adapters : List Nat)
    (h : 0 < all_param base) :
    trainable_params (get_peft_model (freeze base) adapters)
      < all_param (get_peft_model (freeze base) adapters) := by
  rw [get_peft_model, trainable_params_append, all_param_append,
    trainable_params_freeze, all_param_freeze]
  have hle := trainable_le_all (adapters.map (fun n => { numel := n, requires_grad := true }))
  omega

/-- Witness for C4 at a concrete one-parameter base model and one adapter. -/
theorem C4_lora_trainable_lt_witness :
    0 < all_param [{ numel := 10, requires_grad := true }] ∧
    trainable_params
        (get_peft_model (freeze [{ numel := 10, requires_grad := true }]) [2])
      < all_param
        (get_peft_model (freeze [{ numel := 10, requires_grad := true }]) [2]) :=
  ⟨by decide, C4_lora_trainable_lt [{ numel := 10, requires_grad := true }] [2] (by decide)⟩

/-- Claim C5: for each sample pair, the length of the instruction-augmented
input sequence produced by concatenation along dimension 1 equals the encoded
instruction length plus the encoded text length, and the adjusted attention
mask has the same combined length. -/
theorem C5_concat_length (instruction_ids input_ids attention_mask : List (List Nat))
    (i : Nat) (h1 : i < instruction_ids.length) (h2 : i < input_ids.length)
    (h3 : i < attention_mask.length) :
    ((augmented_input_ids instruction_ids input_ids).getD i []).length
      = (instruction_ids.getD i []).length + (input_ids.getD i []).length ∧
    ((adjusted_attention_mask instruction_ids attention_mask).getD i []).length
      = (instruction_ids.getD i []).length + (attention_mask.getD i []).length := by
  constructor
  · rw [augmented_input_ids, cat_dim1, getD_zipWith_append _ _ i h1 h2,
      List.length_append]
  · have hones : i < (ones_like instruction_ids).length := by
      rw [ones_like, List.length_map]; exact h1
    rw [adjusted_attention_mask, cat_dim1, getD_zipWith_append _ _ i hones h3,
      List.length_append, getD_ones_like instruction_ids i h1, List.length_map]

/-- Witness for C5 at concrete one-row tensors. -/
theorem C5_concat_length_witness :
    ((augmented_input_ids [[1, 2]] [[3]]).getD 0 []).length
      = (([[1, 2]] : List (List Nat)).getD 0 []).length
        + (([[3]] : List (List Nat)).getD 0 []).length :=
  (C5_concat_length [[1, 2]] [[3]] [[1]] 0 (by decide) (by decide) (by decide)).1

set_option maxRecDepth 20000 in
/-- Claim C6: no operation in the notebook catches any error — once a cell
faults (for instance the unterminated list literal of the first dataset cell,
or `torch.tensor(sentiments)` applied to the string labels in the second
training loop), the fault is the final outcome and no later cell runs, with
no recovery or fallback behavior. -/
theorem C6_no_error_handling {σ : Type} (pre post : List (σ → Except PyFault σ))
    (c : σ → Except PyFault σ) (s s' : σ) (f : PyFault)
    (h1 : run_cells pre s = Except.ok s') (h2 : c s' = Except.error f) :
    run_cells (pre ++ c :: post) s = Except.error f ∧
    parse_cell cell3_source = Except.error PyFault.badParse ∧
    torch_tensor (sentiments.map PyValue.str)
      = Except.error (PyFault.typeFault "positive") := by
  refine ⟨run_cells_halts pre post c s s' f h1 h2, ?_, ?_⟩
  · rfl
  · rfl

/-- Witness for C6: a one-cell notebook whose cell faults. -/
theorem C6_no_error_handling_witness :
    run_cells
        (List.nil ++ (fun _ : Nat => (Except.error PyFault.badParse : Except PyFault Nat))
          :: List.nil) 0
      = Except.error PyFault.badParse :=
  (C6_no_error_handling List.nil List.nil
    (fun _ : Nat => (Except.error PyFault.badParse : Except PyFault Nat))
    0 0 PyFault.badParse rfl rfl).1

/-- Claim C7: encoding is deterministic — two tokenizers with the same
maximum length whose vocabulary lookups agree on every text of the batch
produce identical token-id and attention-mask sequences, so the encoded
batch is a pure function of the sample list and the tokenizer's vocabulary. -/
theorem C7_encode_deterministic (tok₁ tok₂ : Tokenizer) (texts : List String)
    (hlen : tok₁.model_max_length = tok₂.model_max_length)
    (htok : ∀ t ∈ texts, tok₁.tokenize t = tok₂.tokenize t) :
    encode tok₁ texts = encode tok₂ texts := by
  have htr : ∀ t ∈ texts, truncated_ids tok₁ t = truncated_ids tok₂ t := by
    intro t ht
    rw [truncated_ids, truncated_ids, htok t ht, hlen]
  have hbl : batch_length tok₁ texts = batch_length tok₂ texts := by
    rw [batch_length, batch_length]
    congr 1
    exact List.map_congr_left (fun t ht => by rw [htr t ht])
  simp only [encode, EncodedBatch.mk.injEq]
  constructor <;> exact List.map_congr_left (fun t ht => by rw [htr t ht, hbl])

/-- Witness for C7: two concretely different tokenizers that agree on the
batch produce the same encoding. -/
theorem C7_encode_deterministic_witness :
    encode demo_tokenizer ["ab", "c"] = encode alt_tokenizer ["ab", "c"] :=
  C7_encode_deterministic demo_tokenizer alt_tokenizer ["ab", "c"] rfl (by decide)

/-- Claim C8 (implicit): the adjusted attention mask marks every instruction
position as real content (value 1), because it uses
`torch.ones_like(instruction_ids)` rather than the instructions' own
attention mask, while text positions keep their original mask values. -/
theorem C8_instruction_mask_all_ones (instruction_ids attention_mask : List (List Nat))
    (i : Nat) (h1 : i < instruction_ids.length) (h2 : i < attention_mask.length) :
    (∀ j, j < (instruction_ids.getD i []).length →
      ((adjusted_attention_mask instruction_ids attention_mask).getD i []).getD j 0
        = 1) ∧
    (∀ j, ((adjusted_attention_mask instruction_ids attention_mask).getD i []).getD
        ((instruction_ids.getD i []).length + j) 0
      = (attention_mask.getD i []).getD j 0) := by
  have hones : i < (ones_like instruction_ids).length := by
    rw [ones_like, List.length_map]; exact h1
  have hrow : (adjusted_attention_mask instruction_ids attention_mask).getD i []
      = (instruction_ids.getD i []).map (fun _ => 1) ++ attention_mask.getD i [] := by
    rw [adjusted_attention_mask, cat_dim1, getD_zipWith_append _ _ i hones h2,
      getD_ones_like instruction_ids i h1]
  constructor
  · intro j hj
    rw [hrow, List.getD_append]
    · exact getD_map_one_of_lt (instruction_ids.getD i []) j hj
    · rw [List.length_map]; exact hj
  · intro j
    rw [hrow, List.getD_append_right]
    · rw [List.length_map, Nat.add_sub_cancel_left]
    · rw [List.length_map]; exact Nat.le_add_right _ j

/-- Witness for C8 at concrete one-row tensors: the instruction part of the
adjusted mask is 1 even where the text mask would be 0. -/
theorem C8_instruction_mask_all_ones_witness :
    ((adjusted_attention_mask [[5, 6]] [[1, 0]]).getD 0 []).getD 0 0 = 1 :=
  (C8_instruction_mask_all_ones [[5, 6]] [[1, 0]] 0 (by decide) (by decide)).1
    0 (by decide)

/-- Claim C9 (implicit): for every model, after the counting loop in
`print_trainable_parameters`, `trainable_params ≤ all_param`, because each
parameter's element count is added to `all_param` unconditionally and to
`trainable_params` only when that parameter has `requires_grad` set. -/
theorem C9_trainable_le_all_param (m : Model) :
    trainable_params m ≤ all_param m :=
  trainable_le_all m

/-- Claim C10 (implicit): `print_trainable_parameters` computes the trainable
percentage as `100 * trainable_params / all_param` with no guard on
`all_param`: the division is well defined for every model with at least one
parameter element, and fails with a division-by-zero fault for a model with
zero parameter elements. -/
theorem C10_percentage_guard (m : Model) :
    (0 < all_param m →
      trainable_percentage m
        = Except.ok ((100 * (trainable_params m : ℚ)) / (all_param m : ℚ))) ∧
    (all_param m = 0 →
      trainable_percentage m = Except.error PyFault.zeroDivision) := by
  constructor
  · intro h
    have h0 : ((all_param m : ℚ)) ≠ 0 := Nat.cast_ne_zero.mpr (by omega)
    simp [trainable_percentage, pyDiv, h0]
  · intro h
    simp [trainable_percentage, pyDiv, h]

/-- Witness for C10: a two-parameter model yields 40 percent; the empty model
faults with division by zero. -/
theorem C10_percentage_guard_witness :
    (0 < all_param [{ numel := 2, requires_grad := true },
        { numel := 3, requires_grad := false }] ∧
      trainable_percentage [{ numel := 2, requires_grad := true },
          { numel := 3, requires_grad := false }]
        = Except.ok ((100 * (trainable_params [{ numel := 2, requires_grad := true },
            { numel := 3, requires_grad := false }] : ℚ))
          / ((all_param [{ numel := 2, requires_grad := true },
            { numel := 3, requires_grad := false }] : ℚ)))) ∧
    (all_param ([] : Model) = 0 ∧
      trainable_percentage ([] : Model) = Except.error PyFault.zeroDivision) :=
  ⟨⟨by decide,
      (C10_percentage_guard [{ numel := 2, requires_grad := true },
        { numel := 3, requires_grad := false }]).1 (by decide)⟩,
    ⟨rfl, (C10_percentage_guard ([] : Model)).2 rfl⟩⟩

end Tutorial
